import Mathlib

/-!
Verification of `custom_render_engine.py` (a Blender custom render engine).

Shallow embedding of the core: the mesh geometry builder (`MeshDraw.__init__`),
the per-object draw protocol (`MeshDraw.draw`), and the renderer's scene-change
and draw callbacks (`CustomRenderEngine.view_update`, `view_draw`).

Float components are modelled as rationals: the code only copies, gathers and
zero-initialises component values, never performs float arithmetic on them,
so an exact field is faithful.
-/

namespace CRE

/-- A 3-component vector (positions, normals, light directions). -/
structure Vec3 where
  x : Rat
  y : Rat
  z : Rat
deriving DecidableEq, Repr, Inhabited

/-- A 4-component vector (RGBA colors, rows of a 4x4 matrix). -/
structure Vec4 where
  x : Rat
  y : Rat
  z : Rat
  w : Rat
deriving DecidableEq, Repr, Inhabited

def zeroVec3 : Vec3 := ⟨0, 0, 0⟩

def zeroVec4 : Vec4 := ⟨0, 0, 0, 0⟩

/-- One mesh loop (face corner): its vertex index (`MeshLoop.vertex_index`)
and its per-loop split normal (`MeshLoop.normal`). -/
structure MeshLoop where
  vertex_index : Nat
  normal : Vec3
deriving DecidableEq, Repr, Inhabited

/-- Snapshot of the host mesh data that `MeshDraw.__init__` reads:
deduplicated vertex coordinates (`mesh.vertices[i].co`), loops,
triangulated loop triples (`mesh.loop_triangles[t].loops`), the optional
active vertex-color layer (`mesh.vertex_colors.active`, one RGBA per loop),
and whether `mesh.calc_tangents()` succeeds (it raises `RuntimeError` on
unsupported topology). -/
structure MeshSnapshot where
  vertices : List Vec3
  loops : List MeshLoop
  loop_triangles : List (Nat × Nat × Nat)
  vertex_colors_active : Option (List Vec4)
  tangentsOk : Bool
deriving DecidableEq, Repr, Inhabited

/-- The renderer-ready buffer assembled by `MeshDraw.__init__`: the arrays
`vertices`, `normals`, `color`, `indices` handed to `batch_for_shader`. -/
structure MeshBuffer where
  positions : List Vec3
  normals : List Vec3
  colors : List Vec4
  indices : List (Nat × Nat × Nat)
deriving DecidableEq, Repr, Inhabited

namespace MeshDraw

/-- The geometry-buffer construction of `MeshDraw.__init__` (lines 174-214).

- The `try: mesh.calc_tangents() except RuntimeError:` block only assigns the
  (otherwise unused) local `use_split_normals`; the build proceeds either way.
- `vertices[i] = merged_vertices[loop_vertices[i]]` gathers one position per
  loop; an out-of-range `vertex_index` would raise `IndexError` in numpy,
  modelled as `none`.
- `color` starts as `np.zeros((len(mesh.loops), 4))` and is overwritten from
  the active vertex-color layer when one exists; `foreach_get` on a layer
  whose element count differs from the loop count raises, modelled as `none`.
- `indices` is copied directly from `mesh.loop_triangles` loop triples. -/
def build (m : MeshSnapshot) : Option MeshBuffer :=
  let use_split_normals : Bool := m.tangentsOk
  if m.loops.all (fun l => decide (l.vertex_index < m.vertices.length)) then
    let vertices := m.loops.map (fun l => m.vertices.getD l.vertex_index zeroVec3)
    let normals := m.loops.map MeshLoop.normal
    let indices := m.loop_triangles
    match m.vertex_colors_active with
    | none =>
        some { positions := vertices, normals := normals,
               colors := List.replicate m.loops.length zeroVec4, indices := indices }
    | some cs =>
        if cs.length = m.loops.length then
          some { positions := vertices, normals := normals, colors := cs, indices := indices }
        else none
  else none

/-- A GPU-side operation issued by `MeshDraw.draw`: the shader bind, one
uniform upload identified by its name, or the indexed triangle draw of
`self.batch.draw(self.shader)`. Uniform payload values are elided; the
claims about the draw protocol concern which uniforms get set. -/
inductive GpuCall where
  | bindShader : GpuCall
  | uniform : String → GpuCall
  | drawCall : GpuCall
deriving DecidableEq, Repr

/-- The uniform names `MeshDraw.draw` sets, in source order inside its
single `try:` block (lines 225-235). -/
def uniformSeq : List String :=
  ["matrix_world", "view_matrix", "projection_matrix", "directional_lights",
   "render_outlines", "outline_width", "shading_sharpness"]

/-- Sequential execution of the uniform uploads inside the `try:` block of
`MeshDraw.draw`: each name is looked up in the compiled shader's available
uniforms; a missing name raises `ValueError`, which transfers control to the
`except ValueError: pass` handler, abandoning every later upload in the
block. Returns the names actually uploaded. -/
def runUniforms (avail : List String) : List String → List String
  | [] => []
  | n :: rest => if n ∈ avail then n :: runUniforms avail rest else []

/-- The GPU-call trace of one `MeshDraw.draw` invocation (lines 216-238):
`self.shader.bind()`, then the `try:` block of uniform uploads, then
`self.batch.draw(self.shader)` (which runs whether or not the `try` block
was cut short). -/
def drawTrace (avail : List String) : List GpuCall :=
  GpuCall.bindShader :: (runUniforms avail uniformSeq).map GpuCall.uniform
    ++ [GpuCall.drawCall]

/-- The local `min` defined inside `MeshDraw.draw` (lines 217-221),
shadowing the builtin. -/
def pyMin (a b : Nat) : Nat := if a > b then b else a

/-- One iteration `packed_lights[i].xyz = lights[i]` of the packing loop:
row `i` gets the light direction in xyz, keeping its present w component. -/
def packStep (lights : List Vec3) (m : Fin 4 → Vec4) (i : Nat) : Fin 4 → Vec4 :=
  match lights[i]? with
  | some v => fun j => if j.val = i then ⟨v.x, v.y, v.z, (m j).w⟩ else m j
  | none => m

/-- The packed directional-light matrix of `MeshDraw.draw` (lines 229-232):
start from `mathutils.Matrix.Diagonal(mathutils.Vector((0, 0, 0, 0)))` (the
zero 4x4 matrix), then `for i in range(min(len(lights), 4)):
packed_lights[i].xyz = lights[i]`. This is the matrix before the final
`.transposed()` upload. -/
def packLights (lights : List Vec3) : Fin 4 → Vec4 :=
  (List.range (MeshDraw.pyMin lights.length 4)).foldl (packStep lights) (fun _ => zeroVec4)

/-- Number of rows of a packed 4x4 matrix that are not the zero row. -/
def nonzeroRowCount (m : Fin 4 → Vec4) : Nat :=
  (List.finRange 4).countP (fun j => decide (m j ≠ zeroVec4))

/-- The xyz of a light direction as a matrix row with zero w. -/
def lightRow (v : Vec3) : Vec4 := ⟨v.x, v.y, v.z, 0⟩

end MeshDraw

/-- A cache entry of `CustomRenderEngine.draw_calls`: the built buffer
together with a build serial number. Each `MeshDraw(...)` construction gets
a fresh serial, so equal serial = the very same Python object (identity),
while a rebuild of identical geometry yields an equal buffer with a new
serial. -/
structure CacheEntry where
  serial : Nat
  buffer : MeshBuffer
deriving DecidableEq, Repr, Inhabited

/-- Association-list model of a Python `dict` with string keys:
`d[k] = v` replaces in place or appends. -/
def dictInsert (d : List (String × CacheEntry)) (k : String) (v : CacheEntry) :
    List (String × CacheEntry) :=
  match d with
  | [] => [(k, v)]
  | (k0, v0) :: rest =>
      if k0 = k then (k, v) :: rest else (k0, v0) :: dictInsert rest k v

/-- `d[k]`, as an option: `none` models the `KeyError` case. -/
def dictLookup (d : List (String × CacheEntry)) (k : String) : Option CacheEntry :=
  match d with
  | [] => none
  | (k0, v0) :: rest => if k0 = k then some v0 else dictLookup rest k

/-- A mesh-object datablock as seen in `depsgraph.ids` / `update.id`:
its name, whether it is an `Object` of type `'MESH'`, and its mesh data. -/
structure Datablock where
  name : String
  isMeshObject : Bool
  data : MeshSnapshot
deriving DecidableEq, Repr, Inhabited

/-- One entry of `depsgraph.updates`. -/
structure DepsUpdate where
  block : Datablock
  is_updated_geometry : Bool
deriving DecidableEq, Repr, Inhabited

/-- One entry of `depsgraph.object_instances`: the instanced object's type
tag (`'MESH'`, `'LIGHT'`, ...), its name, the light data type when it is a
light (`'SUN'`, ...), and — for sun lights — the world-space direction
`mathutils.Vector((0, 0, 1)).rotate(object.matrix_world.decompose()[1])`
computed host-side from the object's world rotation. -/
structure SceneInstance where
  objType : String
  name : String
  lightType : String
  lightDirection : Vec3
deriving DecidableEq, Repr, Inhabited

/-- The slice of the depsgraph that `view_update` reads: all datablocks
(first sync), the change feed, the `id_type_updated('OBJECT')` flag, and
the object instances. -/
structure Depsgraph where
  ids : List Datablock
  updates : List DepsUpdate
  objectTypeUpdated : Bool
  instances : List SceneInstance
deriving DecidableEq, Repr, Inhabited

/-- The mutable state of one `CustomRenderEngine` instance: `scene_data`
(modelled as an initialized flag: `None` vs `[0]`), the `draw_calls` cache,
the collected sun-light directions, the visible mesh instances, and the
next build serial (models Python object identity of `MeshDraw` objects). -/
structure RenderState where
  scene_data : Bool
  draw_calls : List (String × CacheEntry)
  lights : List Vec3
  mesh_objects : List SceneInstance
  nextSerial : Nat
deriving DecidableEq, Repr, Inhabited

/-- First-sync loop of `view_update` (lines 88-94): for every datablock that
is a mesh-type `Object`, build a `MeshDraw` and store it under the object
name. A build failure (host exception) aborts the callback. -/
def syncIds (serial : Nat) (dc : List (String × CacheEntry)) :
    List Datablock → Except String (List (String × CacheEntry) × Nat)
  | [] => .ok (dc, serial)
  | b :: rest =>
      if b.isMeshObject then
        match MeshDraw.build b.data with
        | none => .error b.name
        | some buf => syncIds (serial + 1) (dictInsert dc b.name ⟨serial, buf⟩) rest
      else syncIds serial dc rest

/-- Update loop of `view_update` (lines 99-108): rebuild and replace the
cache entry only for updates on mesh-type `Object`s whose
`is_updated_geometry` flag is set. -/
def syncUpdates (serial : Nat) (dc : List (String × CacheEntry)) :
    List DepsUpdate → Except String (List (String × CacheEntry) × Nat)
  | [] => .ok (dc, serial)
  | u :: rest =>
      if u.block.isMeshObject && u.is_updated_geometry then
        match MeshDraw.build u.block.data with
        | none => .error u.block.name
        | some buf =>
            syncUpdates (serial + 1) (dictInsert dc u.block.name ⟨serial, buf⟩) rest
      else syncUpdates serial dc rest

/-- Lines 116-133 of `view_update`: when `first_time or
depsgraph.id_type_updated('OBJECT')`, reset `self.mesh_objects` to `[]` and
refill it with the mesh-type instances, then reset `self.lights` to `[]`
and refill it with one direction per sun-type light instance, both from a
single scan of `depsgraph.object_instances`. -/
def recomputeVisible (st : RenderState) (dg : Depsgraph) (first_time : Bool) :
    RenderState :=
  if first_time || dg.objectTypeUpdated then
    { st with
      mesh_objects := dg.instances.filter (fun i => i.objType == "MESH"),
      lights := dg.instances.filterMap (fun i =>
        if i.objType == "LIGHT" then
          if i.lightType == "SUN" then some i.lightDirection else none
        else none) }
  else st

/-- `CustomRenderEngine.view_update` (lines 73-133): on first call
(`self.scene_data` unset) initialize `scene_data`, build every mesh
datablock; otherwise process the update feed; in both cases recompute the
visible-instance and light lists when warranted. -/
def view_update (st : RenderState) (dg : Depsgraph) : Except String RenderState :=
  if st.scene_data then
    match syncUpdates st.nextSerial st.draw_calls dg.updates with
    | .error e => .error e
    | .ok (dc, ns) =>
        .ok (recomputeVisible
          { st with draw_calls := dc, nextSerial := ns } dg false)
  else
    match syncIds st.nextSerial st.draw_calls dg.ids with
    | .error e => .error e
    | .ok (dc, ns) =>
        .ok (recomputeVisible
          { st with scene_data := true, draw_calls := dc, nextSerial := ns } dg true)

/-- The per-object loop of `CustomRenderEngine.view_draw` (lines 159-161):
`draw = self.draw_calls[object.name]` then `draw.draw(...)`. A missing key
raises `KeyError`, aborting the loop; otherwise the object is drawn and the
loop continues. Returns the names drawn, in order. -/
def drawLoop (dc : List (String × CacheEntry)) :
    List SceneInstance → Except String (List String)
  | [] => .ok []
  | o :: rest =>
      match dictLookup dc o.name with
      | none => .error o.name
      | some _ =>
          match drawLoop dc rest with
          | .ok names => .ok (o.name :: names)
          | .error e => .error e

/-- `CustomRenderEngine.view_draw` restricted to its per-object draw loop
(the surrounding GPU state set/restore calls do not depend on the cache). -/
def view_draw (st : RenderState) : Except String (List String) :=
  drawLoop st.draw_calls st.mesh_objects

/-- Whether an `Except` computation completed without raising. -/
def exceptOk {ε α : Type} : Except ε α → Bool
  | .ok _ => true
  | .error _ => false

/-! Concrete inputs used by witnesses and counterexamples. -/

/-- A single-triangle mesh: 3 vertices, 3 loops, one loop triangle, no
active color layer, tangent computation unsupported. -/
def mTri : MeshSnapshot :=
  { vertices := [⟨0, 0, 0⟩, ⟨1, 0, 0⟩, ⟨0, 1, 0⟩],
    loops := [⟨0, ⟨0, 0, 1⟩⟩, ⟨1, ⟨0, 0, 1⟩⟩, ⟨2, ⟨0, 0, 1⟩⟩],
    loop_triangles := [(0, 1, 2)],
    vertex_colors_active := none,
    tangentsOk := false }

/-- The buffer built from `mTri`. -/
def bTri : MeshBuffer := (MeshDraw.build mTri).getD default

/-- A three-entry RGBA color layer. -/
def triColors : List Vec4 := [⟨1, 0, 0, 1⟩, ⟨0, 1, 0, 1⟩, ⟨0, 0, 1, 1⟩]

/-- `mTri` with an active vertex-color layer of one RGBA per loop. -/
def mTriColored : MeshSnapshot :=
  { mTri with vertex_colors_active := some triColors }

/-- The buffer built from `mTriColored`. -/
def bTriColored : MeshBuffer := (MeshDraw.build mTriColored).getD default

/-- Six distinct non-zero sun directions. -/
def sixLights : List Vec3 :=
  [⟨0, 0, 1⟩, ⟨1, 0, 0⟩, ⟨0, 1, 0⟩, ⟨0, 0, -1⟩, ⟨1, 1, 0⟩, ⟨0, 1, 1⟩]

/-- A visible mesh instance named Cube. -/
def instCube : SceneInstance := ⟨"MESH", "Cube", "", zeroVec3⟩

/-- A visible mesh instance named Sphere. -/
def instSphere : SceneInstance := ⟨"MESH", "Sphere", "", zeroVec3⟩

/-- A sun-light instance with direction (0, 0, 1). -/
def sunInst : SceneInstance := ⟨"LIGHT", "Sun", "SUN", ⟨0, 0, 1⟩⟩

/-- A renderer state whose visible list holds Cube and Sphere but whose
cache only holds Sphere: Cube is visible yet never synced. -/
def stMissingCube : RenderState :=
  { scene_data := true,
    draw_calls := [("Sphere", ⟨0, bTri⟩)],
    lights := [],
    mesh_objects := [instCube, instSphere],
    nextSerial := 1 }

/-- A shader-variant uniform set lacking only the first bound name,
`matrix_world`; every later name of the binding sequence is present. -/
def availNoWorld : List String :=
  ["view_matrix", "projection_matrix", "directional_lights",
   "render_outlines", "outline_width", "shading_sharpness"]

/-- A synced renderer state caching Cube. -/
def stSynced : RenderState :=
  { scene_data := true,
    draw_calls := [("Cube", ⟨0, bTri⟩)],
    lights := [],
    mesh_objects := [instCube],
    nextSerial := 1 }

/-- A change notification for Cube with the geometry flag clear (a pure
object-level change, e.g. a transform edit), with `id_type_updated('OBJECT')`
set. -/
def dgTransformOnly : Depsgraph :=
  { ids := [],
    updates := [⟨⟨"Cube", true, mTri⟩, false⟩],
    objectTypeUpdated := true,
    instances := [instCube] }

/-- The state after notifying `stSynced` of the transform-only change. -/
def stSynced2 : RenderState :=
  (view_update stSynced dgTransformOnly).toOption.getD default

/-- An uninitialized renderer state carrying stale lists (what repeated
notifications would have to clear). -/
def stFresh : RenderState :=
  { scene_data := false,
    draw_calls := [],
    lights := [⟨1, 2, 3⟩],
    mesh_objects := [instSphere, instSphere],
    nextSerial := 0 }

/-- A first-sync depsgraph with one mesh datablock and instances of one
mesh and one sun light. -/
def dgScan : Depsgraph :=
  { ids := [⟨"Cube", true, mTriColored⟩],
    updates := [],
    objectTypeUpdated := false,
    instances := [instCube, sunInst] }

/-- The state after the first sync of `stFresh` against `dgScan`. -/
def stAfterScan : RenderState :=
  (view_update stFresh dgScan).toOption.getD default

end CRE

namespace CRE

theorem dictLookup_dictInsert_ne (d : List (String × CacheEntry)) (k k0 : String)
    (v : CacheEntry) (hne : k0 ≠ k) :
    dictLookup (dictInsert d k v) k0 = dictLookup d k0 := by
  induction d with
  | nil => simp [dictInsert, dictLookup, Ne.symm hne]
  | cons p rest ih =>
      obtain ⟨k1, v1⟩ := p
      by_cases h1 : k1 = k
      · subst h1
        simp [dictInsert, dictLookup, Ne.symm hne]
      · simp [dictInsert, dictLookup, h1]
        by_cases h2 : k1 = k0 <;> simp [h2, ih]

/-- Decomposition of a successful `MeshDraw.build` into its four arrays. -/
theorem build_eq_some (m : MeshSnapshot) (b : MeshBuffer)
    (h : MeshDraw.build m = some b) :
    b.positions = m.loops.map (fun l => m.vertices.getD l.vertex_index zeroVec3) ∧
    b.normals = m.loops.map MeshLoop.normal ∧
    b.indices = m.loop_triangles ∧
    b.colors.length = m.loops.length ∧
    (m.vertex_colors_active = none → b.colors = List.replicate m.loops.length zeroVec4) ∧
    (∀ cs, m.vertex_colors_active = some cs → b.colors = cs) := by
  unfold MeshDraw.build at h
  split at h
  · cases hact : m.vertex_colors_active with
    | none =>
        rw [hact] at h
        cases h
        simp
    | some cs =>
        rw [hact] at h
        dsimp only at h
        by_cases hlen : cs.length = m.loops.length
        · rw [if_pos hlen] at h
          cases h
          simp [hlen]
        · rw [if_neg hlen] at h
          cases h
  · cases h

/-- Claim C3: for every mesh snapshot accepted by the builder, the
resulting buffer's positions, normals and colors have equal length, and
that common length is the mesh's loop count. -/
theorem build_lengths_eq_loop_count (m : MeshSnapshot) (b : MeshBuffer)
    (h : MeshDraw.build m = some b) :
    b.positions.length = m.loops.length ∧
    b.normals.length = m.loops.length ∧
    b.colors.length = m.loops.length := by
  obtain ⟨hp, hn, -, hc, -, -⟩ := build_eq_some m b h
  exact ⟨by rw [hp]; simp, by rw [hn]; simp, hc⟩

/-- Witness for C3: the single-triangle mesh builds to a buffer whose three
arrays all have length 3 (= its loop count). -/
theorem build_lengths_eq_loop_count_witness :
    bTri.positions.length = mTri.loops.length ∧
    bTri.normals.length = mTri.loops.length ∧
    bTri.colors.length = mTri.loops.length :=
  build_lengths_eq_loop_count mTri bTri rfl

/-- Claim C4: for every mesh snapshot accepted by the builder whose loop
triangles index into its loops (the host guarantees this for triangulated
meshes), every index in the built buffer's index triples is strictly below
the length of the built positions array. -/
theorem build_indices_within_positions (m : MeshSnapshot) (b : MeshBuffer)
    (h : MeshDraw.build m = some b)
    (htri : ∀ t ∈ m.loop_triangles,
      t.1 < m.loops.length ∧ t.2.1 < m.loops.length ∧ t.2.2 < m.loops.length) :
    ∀ t ∈ b.indices,
      t.1 < b.positions.length ∧ t.2.1 < b.positions.length ∧
      t.2.2 < b.positions.length := by
  obtain ⟨hp, -, hi, -, -, -⟩ := build_eq_some m b h
  intro t ht
  rw [hi] at ht
  have hlen : b.positions.length = m.loops.length := by rw [hp]; simp
  rw [hlen]
  exact htri t ht

/-- Witness for C4: the single triangle's index triple (0, 1, 2) stays
below the built buffer's 3 positions. -/
theorem build_indices_within_positions_witness :
    0 < bTri.positions.length ∧ 1 < bTri.positions.length ∧
    2 < bTri.positions.length :=
  build_indices_within_positions mTri bTri rfl (by decide) (0, 1, 2) (by decide)

/-- Claim C6: a mesh with no active vertex-color layer builds with every
color entry equal to (0,0,0,0) (the buffer is the zero-filled replicate);
with an active layer present, the per-loop colors are copied from it
directly. -/
theorem build_colors_default_zero_or_copied (m : MeshSnapshot) (b : MeshBuffer)
    (h : MeshDraw.build m = some b) :
    (m.vertex_colors_active = none →
      b.colors = List.replicate m.loops.length zeroVec4) ∧
    (∀ cs, m.vertex_colors_active = some cs → b.colors = cs) := by
  obtain ⟨-, -, -, -, hz, hcopy⟩ := build_eq_some m b h
  exact ⟨hz, hcopy⟩

/-- Witness for C6: the colorless triangle builds all-zero colors, and the
colored variant copies its layer verbatim. -/
theorem build_colors_default_zero_or_copied_witness :
    bTri.colors = List.replicate mTri.loops.length zeroVec4 ∧
    bTriColored.colors = triColors :=
  ⟨(build_colors_default_zero_or_copied mTri bTri rfl).1 rfl,
   (build_colors_default_zero_or_copied mTriColored bTriColored rfl).2 triColors rfl⟩

/-- Claim C8: when per-loop tangent computation raises (`tangentsOk =
false`), the build of an otherwise acceptable snapshot still succeeds, its
result is identical to the tangent-succeeding build, and its normals are
the per-loop split normals; the failure never propagates out. -/
theorem build_absorbs_tangent_failure (m : MeshSnapshot)
    (hv : m.loops.all (fun l => decide (l.vertex_index < m.vertices.length)) = true)
    (hc : ∀ cs, m.vertex_colors_active = some cs → cs.length = m.loops.length)
    (ht : m.tangentsOk = false) :
    MeshDraw.build m = MeshDraw.build { m with tangentsOk := true } ∧
    Option.map MeshBuffer.positions (MeshDraw.build m) =
      some (m.loops.map (fun l => m.vertices.getD l.vertex_index zeroVec3)) ∧
    Option.map MeshBuffer.normals (MeshDraw.build m) =
      some (m.loops.map MeshLoop.normal) := by
  refine ⟨rfl, ?_⟩
  unfold MeshDraw.build
  rw [if_pos hv]
  cases hact : m.vertex_colors_active with
  | none => exact ⟨rfl, rfl⟩
  | some cs =>
      dsimp only
      rw [if_pos (hc cs hact)]
      exact ⟨rfl, rfl⟩

/-- Witness for C8: `mTri` has `tangentsOk = false` yet builds, equals the
tangent-succeeding twin's build, and carries the split normals. -/
theorem build_absorbs_tangent_failure_witness :
    MeshDraw.build mTri = MeshDraw.build { mTri with tangentsOk := true } ∧
    Option.map MeshBuffer.positions (MeshDraw.build mTri) =
      some (mTri.loops.map (fun l => mTri.vertices.getD l.vertex_index zeroVec3)) ∧
    Option.map MeshBuffer.normals (MeshDraw.build mTri) =
      some (mTri.loops.map MeshLoop.normal) :=
  build_absorbs_tangent_failure mTri (by decide)
    (fun cs hcs => by cases hcs) rfl

/-- Claim C9: building the same unchanged snapshot twice yields
component-wise equal buffers. -/
theorem build_deterministic_componentwise (m : MeshSnapshot) (b1 b2 : MeshBuffer)
    (h1 : MeshDraw.build m = some b1) (h2 : MeshDraw.build m = some b2) :
    b1.positions = b2.positions ∧ b1.normals = b2.normals ∧
    b1.colors = b2.colors ∧ b1.indices = b2.indices := by
  rw [h1] at h2
  cases h2
  exact ⟨rfl, rfl, rfl, rfl⟩

/-- Witness for C9: two builds of the single-triangle mesh agree
component-wise. -/
theorem build_deterministic_componentwise_witness :
    bTri.positions = bTri.positions ∧ bTri.normals = bTri.normals ∧
    bTri.colors = bTri.colors ∧ bTri.indices = bTri.indices :=
  build_deterministic_componentwise mTri bTri bTri rfl rfl

/-- Row-wise value of the packing loop after its first `b` iterations:
row `j` holds light `j`'s direction (zero w) when `j < b`, else stays the
zero row. -/
theorem packRange_apply (lights : List Vec3) (b : Nat) (hb : b ≤ lights.length)
    (j : Fin 4) :
    (List.range b).foldl (MeshDraw.packStep lights) (fun _ => zeroVec4) j =
      if j.val < b then MeshDraw.lightRow (lights.getD j.val zeroVec3)
      else zeroVec4 := by
  induction b with
  | zero => simp
  | succ n ih =>
      have hn : n < lights.length := Nat.lt_of_lt_of_le (Nat.lt_succ_self n) hb
      have ihn := ih (Nat.le_of_lt hn)
      rw [List.range_succ, List.foldl_append, List.foldl_cons, List.foldl_nil]
      set prev := List.foldl (MeshDraw.packStep lights) (fun _ => zeroVec4)
        (List.range n) with hprev
      unfold MeshDraw.packStep
      rw [List.getElem?_eq_getElem hn]
      dsimp only
      by_cases hj : j.val = n
      · rw [if_pos hj, ihn, if_neg (by omega), if_pos (by omega)]
        have hg : lights.getD j.val zeroVec3 = lights[n] := by
          rw [hj, List.getD_eq_getElem?_getD, List.getElem?_eq_getElem hn]
          rfl
        rw [hg]
        rfl
      · rw [if_neg hj, ihn]
        by_cases hlt : j.val < n
        · rw [if_pos hlt, if_pos (by omega)]
        · rw [if_neg hlt, if_neg (by omega)]

/-- Counting the rows below a cutoff `k ≤ 4` among the four rows. -/
theorem countP_finRange_lt (k : Nat) (hk : k ≤ 4) :
    (List.finRange 4).countP (fun j => decide (j.val < k)) = k := by
  interval_cases k <;> decide

/-- Claim C5: for a light list of n non-zero sun directions, the packed
4x4 light matrix has its first min(n, 4) rows equal to the directions in
discovery order (with zero w), every later row zero, and exactly min(n, 4)
non-zero rows — so 0, 1, 4 and 6 lights give 0, 1, 4 and 4 non-zero rows,
the 5th and 6th silently dropped. -/
theorem packLights_rows_spec (lights : List Vec3)
    (hnz : lights.all (fun v => decide (v ≠ zeroVec3)) = true) :
    (∀ j : Fin 4, j.val < MeshDraw.pyMin lights.length 4 →
      MeshDraw.packLights lights j = MeshDraw.lightRow (lights.getD j.val zeroVec3)) ∧
    (∀ j : Fin 4, MeshDraw.pyMin lights.length 4 ≤ j.val →
      MeshDraw.packLights lights j = zeroVec4) ∧
    MeshDraw.nonzeroRowCount (MeshDraw.packLights lights) = MeshDraw.pyMin lights.length 4 := by
  have hminlen : MeshDraw.pyMin lights.length 4 ≤ lights.length := by
    unfold MeshDraw.pyMin; split <;> omega
  have hmin4 : MeshDraw.pyMin lights.length 4 ≤ 4 := by
    unfold MeshDraw.pyMin; split <;> omega
  have hrow := packRange_apply lights (MeshDraw.pyMin lights.length 4) hminlen
  have part1 : ∀ j : Fin 4, j.val < MeshDraw.pyMin lights.length 4 →
      MeshDraw.packLights lights j = MeshDraw.lightRow (lights.getD j.val zeroVec3) := by
    intro j hj
    unfold MeshDraw.packLights
    rw [hrow j, if_pos hj]
  have part2 : ∀ j : Fin 4, MeshDraw.pyMin lights.length 4 ≤ j.val →
      MeshDraw.packLights lights j = zeroVec4 := by
    intro j hj
    unfold MeshDraw.packLights
    rw [hrow j, if_neg (by omega)]
  refine ⟨part1, part2, ?_⟩
  unfold MeshDraw.nonzeroRowCount
  have key : ∀ j ∈ List.finRange 4,
      (decide (MeshDraw.packLights lights j ≠ zeroVec4)) = true ↔
      (decide (j.val < MeshDraw.pyMin lights.length 4)) = true := by
    intro j _
    simp only [decide_eq_true_eq]
    constructor
    · intro hne
      by_contra hge
      exact hne (part2 j (by omega))
    · intro hlt
      rw [part1 j hlt]
      have hmem : lights.getD j.val zeroVec3 ∈ lights := by
        have hjlen : j.val < lights.length := Nat.lt_of_lt_of_le hlt hminlen
        rw [List.getD_eq_getElem?_getD, List.getElem?_eq_getElem hjlen]
        exact List.getElem_mem hjlen
      have hv : lights.getD j.val zeroVec3 ≠ zeroVec3 := by
        have := List.all_eq_true.mp hnz _ hmem
        simpa using this
      intro hz
      apply hv
      have hx := congrArg Vec4.x hz
      have hy := congrArg Vec4.y hz
      have hzc := congrArg Vec4.z hz
      cases hg : lights.getD j.val zeroVec3
      rw [hg] at hx hy hzc
      simp [MeshDraw.lightRow, zeroVec4] at hx hy hzc
      simp [zeroVec3, hx, hy, hzc]
  rw [List.countP_congr key]
  exact countP_finRange_lt (MeshDraw.pyMin lights.length 4) hmin4

/-- Witness for C5: with 6 sun lights the packed matrix has exactly
min(6, 4) = 4 non-zero rows, and row 0 holds the first direction. -/
theorem packLights_rows_spec_witness :
    MeshDraw.nonzeroRowCount (MeshDraw.packLights sixLights) =
      MeshDraw.pyMin sixLights.length 4 ∧
    MeshDraw.packLights sixLights (0 : Fin 4) =
      MeshDraw.lightRow (sixLights.getD 0 zeroVec3) :=
  ⟨(packLights_rows_spec sixLights (by decide)).2.2,
   (packLights_rows_spec sixLights (by decide)).1 (0 : Fin 4) (by decide)⟩

/-- The per-object draw loop succeeds exactly when every visible object
has a cache entry; a single missing key makes it raise. -/
theorem drawLoop_ok (dc : List (String × CacheEntry)) (objs : List SceneInstance) :
    exceptOk (drawLoop dc objs) =
      objs.all (fun o => (dictLookup dc o.name).isSome) := by
  induction objs with
  | nil => rfl
  | cons o rest ih =>
      unfold drawLoop
      cases h : dictLookup dc o.name with
      | none => simp [exceptOk, h]
      | some v =>
          cases hr : drawLoop dc rest with
          | ok names =>
              rw [hr] at ih
              simp [exceptOk, h, ← ih]
          | error e =>
              rw [hr] at ih
              simp [exceptOk, h, ← ih]

/-- Claim C1 (amended): `view_draw` does not skip a visible instance whose
cache entry is missing — the dict lookup raises `KeyError`, so the frame
draw completes without error exactly when every visible mesh instance has
a cache entry. -/
theorem view_draw_ok_iff_all_cached (st : RenderState) :
    exceptOk (view_draw st) =
      st.mesh_objects.all (fun o => (dictLookup st.draw_calls o.name).isSome) :=
  drawLoop_ok st.draw_calls st.mesh_objects

/-- Counterexample to C1 as stated: with Cube visible but absent from the
cache, `view_draw` raises `KeyError` for Cube (it does not skip silently),
and the remaining instance Sphere — which is cached — is not drawn. -/
theorem view_draw_missing_entry_raises :
    dictLookup stMissingCube.draw_calls "Cube" = none ∧
    instCube ∈ stMissingCube.mesh_objects ∧
    (dictLookup stMissingCube.draw_calls "Sphere").isSome = true ∧
    view_draw stMissingCube = Except.error "Cube" :=
  ⟨rfl, by simp [stMissingCube], rfl, rfl⟩

/-- Execution of the uniform `try:` block: a leading run of available
names is uploaded, and the first missing name aborts the rest. -/
theorem runUniforms_prefix (avail pre : List String) (fname : String)
    (post : List String) (hpre : ∀ p ∈ pre, p ∈ avail) (hf : fname ∉ avail) :
    MeshDraw.runUniforms avail (pre ++ fname :: post) = pre := by
  induction pre with
  | nil =>
      unfold MeshDraw.runUniforms
      simp only [List.nil_append]
      rw [if_neg hf]
  | cons p rest ih =>
      have hp : p ∈ avail := hpre p (by simp)
      unfold MeshDraw.runUniforms
      simp only [List.cons_append]
      rw [if_pos hp, ih (fun q hq => hpre q (by simp [hq]))]

/-- Claim C2 (amended): when setting the uniform `fname` fails because the
shader variant lacks it, that uniform and every uniform after it in the
binding sequence are skipped (the `except` catches the `ValueError` raised
mid-block), while the uniforms before it were set and the indexed triangle
draw call is still issued. -/
theorem draw_uniform_failure_aborts_remaining (avail pre : List String)
    (fname : String) (post : List String)
    (hseq : MeshDraw.uniformSeq = pre ++ fname :: post)
    (hpre : ∀ p ∈ pre, p ∈ avail) (hf : fname ∉ avail) :
    MeshDraw.drawTrace avail =
      MeshDraw.GpuCall.bindShader :: pre.map MeshDraw.GpuCall.uniform
        ++ [MeshDraw.GpuCall.drawCall] := by
  unfold MeshDraw.drawTrace
  rw [hseq, runUniforms_prefix avail pre fname post hpre hf]

/-- Witness for C2 (amended): with only `matrix_world` available, the
failure on `view_matrix` leaves exactly the bind, one uniform upload and
the draw call. -/
theorem draw_uniform_failure_aborts_remaining_witness :
    MeshDraw.drawTrace ["matrix_world"] =
      MeshDraw.GpuCall.bindShader ::
        (["matrix_world"].map MeshDraw.GpuCall.uniform)
        ++ [MeshDraw.GpuCall.drawCall] :=
  draw_uniform_failure_aborts_remaining ["matrix_world"] ["matrix_world"]
    "view_matrix"
    ["projection_matrix", "directional_lights", "render_outlines",
     "outline_width", "shading_sharpness"]
    rfl (by decide) (by decide)

/-- Counterexample to C2 as stated: with every uniform except the first
(`matrix_world`) available, the available remaining uniform `view_matrix`
is nevertheless not set — only the draw call survives the failure. -/
theorem draw_uniform_failure_skips_available_rest :
    "view_matrix" ∈ availNoWorld ∧
    MeshDraw.GpuCall.uniform "view_matrix" ∉ MeshDraw.drawTrace availNoWorld ∧
    MeshDraw.GpuCall.drawCall ∈ MeshDraw.drawTrace availNoWorld := by
  refine ⟨by decide, ?_, by decide⟩
  decide

/-- `syncUpdates` never touches cache keys for which no processed update
passes the mesh-object-and-geometry test. -/
theorem syncUpdates_preserves (us : List DepsUpdate) :
    ∀ (serial : Nat) (dc : List (String × CacheEntry))
      (res : List (String × CacheEntry) × Nat) (k : String),
    (∀ u ∈ us, u.block.name = k →
      ¬(u.block.isMeshObject = true ∧ u.is_updated_geometry = true)) →
    syncUpdates serial dc us = .ok res →
    dictLookup res.1 k = dictLookup dc k := by
  induction us with
  | nil =>
      intro serial dc res k hno h
      cases h
      rfl
  | cons u rest ih =>
      intro serial dc res k hno h
      unfold syncUpdates at h
      by_cases hc : (u.block.isMeshObject && u.is_updated_geometry) = true
      · rw [if_pos hc] at h
        cases hb : MeshDraw.build u.block.data with
        | none => rw [hb] at h; cases h
        | some buf =>
            rw [hb] at h
            have hcc := hc
            rw [Bool.and_eq_true] at hcc
            have hne : u.block.name ≠ k := by
              intro he
              exact hno u (by simp) he ⟨hcc.1, hcc.2⟩
            have hrest := ih (serial + 1)
              (dictInsert dc u.block.name ⟨serial, buf⟩) res k
              (fun v hv => hno v (List.mem_cons_of_mem u hv)) h
            rw [hrest, dictLookup_dictInsert_ne dc u.block.name k _ (Ne.symm hne)]
      · rw [if_neg hc] at h
        exact ih serial dc res k (fun v hv => hno v (List.mem_cons_of_mem u hv)) h

/-- Recomputing the visible lists never touches the draw-call cache. -/
theorem recomputeVisible_draw_calls (st : RenderState) (dg : Depsgraph)
    (ft : Bool) : (recomputeVisible st dg ft).draw_calls = st.draw_calls := by
  unfold recomputeVisible
  split <;> rfl

/-- Claim C7: after the first sync, a change notification whose updates for
object `k` all have the geometry flag clear leaves `k`'s cache entry
untouched — the looked-up entry (serial and buffer, i.e. the same `MeshDraw`
object) is unchanged. -/
theorem view_update_non_geometry_keeps_entry (st : RenderState) (dg : Depsgraph)
    (k : String) (st2 : RenderState)
    (hinit : st.scene_data = true)
    (hng : ∀ u ∈ dg.updates, u.block.name = k → u.is_updated_geometry = false)
    (h : view_update st dg = .ok st2) :
    dictLookup st2.draw_calls k = dictLookup st.draw_calls k := by
  unfold view_update at h
  rw [if_pos hinit] at h
  cases hs : syncUpdates st.nextSerial st.draw_calls dg.updates with
  | error e => rw [hs] at h; cases h
  | ok p =>
      obtain ⟨dc, ns⟩ := p
      rw [hs] at h
      cases h
      rw [recomputeVisible_draw_calls]
      exact syncUpdates_preserves dg.updates st.nextSerial st.draw_calls (dc, ns) k
        (by
          intro u hu he hcon
          have := hng u hu he
          rw [this] at hcon
          exact absurd hcon.2 (by simp)) hs

/-- Witness for C7: a transform-only notification for Cube leaves the
cached entry under Cube identical. -/
theorem view_update_non_geometry_keeps_entry_witness :
    dictLookup stSynced2.draw_calls "Cube" =
      dictLookup stSynced.draw_calls "Cube" :=
  view_update_non_geometry_keeps_entry stSynced dgTransformOnly "Cube" stSynced2
    rfl (by decide) rfl

/-- Claim C10: whenever `view_update` recomputes visibility (first sync or
any object-level change), the visible mesh list and the light list of the
resulting state come entirely from one scan of the snapshot's instances:
the mesh list is exactly the mesh-typed instances in order, the light list
exactly the sun-light directions in order, independent of the previous
lists — so repeated notifications never duplicate entries. -/
theorem view_update_recompute_lists (st : RenderState) (dg : Depsgraph)
    (st2 : RenderState)
    (hcond : st.scene_data = false ∨ dg.objectTypeUpdated = true)
    (h : view_update st dg = .ok st2) :
    st2.mesh_objects = dg.instances.filter (fun i => i.objType == "MESH") ∧
    st2.lights = dg.instances.filterMap (fun i =>
      if i.objType == "LIGHT" then
        if i.lightType == "SUN" then some i.lightDirection else none
      else none) := by
  unfold view_update at h
  by_cases hsd : st.scene_data = true
  · rw [if_pos hsd] at h
    have hobj : dg.objectTypeUpdated = true := by
      rcases hcond with h1 | h1
      · rw [hsd] at h1; cases h1
      · exact h1
    cases hs : syncUpdates st.nextSerial st.draw_calls dg.updates with
    | error e => rw [hs] at h; cases h
    | ok p =>
        obtain ⟨dc, ns⟩ := p
        rw [hs] at h
        cases h
        constructor <;> simp [recomputeVisible, hobj]
  · rw [if_neg hsd] at h
    cases hs : syncIds st.nextSerial st.draw_calls dg.ids with
    | error e => rw [hs] at h; cases h
    | ok p =>
        obtain ⟨dc, ns⟩ := p
        rw [hs] at h
        cases h
        constructor <;> simp [recomputeVisible]

/-- Witness for C10: a first sync from a state with stale duplicated lists
yields exactly one visible mesh (Cube) and one sun direction. -/
theorem view_update_recompute_lists_witness :
    stAfterScan.mesh_objects =
      dgScan.instances.filter (fun i => i.objType == "MESH") ∧
    stAfterScan.lights = dgScan.instances.filterMap (fun i =>
      if i.objType == "LIGHT" then
        if i.lightType == "SUN" then some i.lightDirection else none
      else none) :=
  view_update_recompute_lists stFresh dgScan stAfterScan (Or.inl rfl) rfl

end CRE
